import Mathlib

/-!
Shallow embedding of the pi-led-service repository (files
`led_controller.py` and `wyoming_led_service.py`): the pixel-driver
variants, the APA102 encoder of the ReSpeaker controller, and the
Wyoming event-to-LED state machine, together with proofs about them.

Machine integers are modelled as `Nat` (all channel and brightness
values in the source are small non-negative Python ints); fallible
operations (`sys.exit`, raised exceptions from a closed SPI handle)
are modelled with `Except`.
-/

/-- An RGB color: three 8-bit channels held as a Python tuple `(r, g, b)`. -/
abbrev Color := Nat × Nat × Nat

/-- `_BLACK = (0, 0, 0)` from `wyoming_led_service.py`. -/
def _BLACK : Color := (0, 0, 0)

/-- `_WHITE = (255, 255, 255)` from `wyoming_led_service.py`. -/
def _WHITE : Color := (255, 255, 255)

/-- `_RED = (255, 0, 0)` from `wyoming_led_service.py`. -/
def _RED : Color := (255, 0, 0)

/-- `_YELLOW = (255, 255, 0)` from `wyoming_led_service.py`. -/
def _YELLOW : Color := (255, 255, 0)

/-- `_BLUE = (0, 0, 255)` from `wyoming_led_service.py`. -/
def _BLUE : Color := (0, 0, 255)

/-- `_GREEN = (0, 255, 0)` from `wyoming_led_service.py`. -/
def _GREEN : Color := (0, 255, 0)

/-- `MAX_LEDS = 10`, shared by both source files. -/
def MAX_LEDS : Nat := 10

/-- ASCII lowercasing of one character; models Python `str.lower()`
on the configuration tokens (which are ASCII). -/
def lowerChar (c : Char) : Char :=
  if 'A' ≤ c ∧ c ≤ 'Z' then Char.ofNat (c.toNat + 32) else c

/-- ASCII lowercasing of a string; models Python `str.lower()`. -/
def lowerStr (s : String) : String := ⟨s.data.map lowerChar⟩

/-! ## CLI controller (`led_controller.py`, class `LEDController`) -/

/-- The two driver back-ends `LEDController.__init__` can select
(`self.driver_type`): the `rpi5-ws2812` SPI driver or the
`rpi_ws281x` PWM driver.  Which one is chosen is platform detection,
outside the embedded logic. -/
inductive DriverType where
  | rpi5_ws2812 : DriverType
  | rpi_ws281x : DriverType

/-- State of `led_controller.py`'s `LEDController`.  `frame` is the
authoritative per-LED color buffer: `self.led_states` for the
`rpi5-ws2812` driver and the `PixelStrip` pixel buffer for
`rpi_ws281x`.  `spiOpen` tracks whether the transport handle is still
open (`self.strip._spi` for the rpi5 driver). -/
structure LEDController where
  led_count : Nat
  driver_type : DriverType
  frame : List Color
  spiOpen : Bool

/-- `LEDController.__init__`: raises `ValueError` iff
`led_count > MAX_LEDS` (there is no lower-bound check in the source);
otherwise the per-LED buffer starts all black. -/
def LEDController.init (led_count : Nat) (dt : DriverType) : Except String LEDController :=
  if led_count > MAX_LEDS then
    Except.error "Number of LEDs cannot exceed MAX_LEDS"
  else
    Except.ok { led_count := led_count, driver_type := dt,
                frame := List.replicate led_count (0, 0, 0), spiOpen := true }

/-- `LEDController.set_color(led_index, r, g, b)`: if the index is in
`[0, led_count)` the buffer entry is replaced and `strip.show()` is
called once; otherwise nothing happens.  The second component counts
the `strip.show()` transmissions performed by the call. -/
def LEDController.set_color (c : LEDController) (led_index : Int) (r g b : Nat) :
    LEDController × Nat :=
  if 0 ≤ led_index ∧ led_index < (c.led_count : Int) then
    ({ c with frame := c.frame.set led_index.toNat (r, g, b) }, 1)
  else
    (c, 0)

/-- `LEDController.set_all(r, g, b)`: replaces every buffer entry
(assignment of `led_states` for rpi5-ws2812, a `setPixelColor` loop
for rpi_ws281x) and then calls `strip.show()` exactly once. -/
def LEDController.set_all (c : LEDController) (r g b : Nat) : LEDController × Nat :=
  ({ c with frame := List.replicate c.led_count (r, g, b) }, 1)

/-- `LEDController.set_pattern(rgb_values)`: if the flat list's length
differs from `led_count * 3` the source prints an error and calls
`sys.exit(1)` before touching the strip (modelled as `Except.error 1`,
the process exit code, with no transmission); otherwise pixel `i` is
set from `rgb_values[i*3 : i*3+3]` and `strip.show()` runs once. -/
def LEDController.set_pattern (c : LEDController) (rgb_values : List Nat) :
    Except Nat (LEDController × Nat) :=
  if rgb_values.length ≠ c.led_count * 3 then
    Except.error 1
  else
    Except.ok
      ({ c with frame := (List.range c.led_count).map (fun i =>
          (rgb_values.getD (i * 3) 0, rgb_values.getD (i * 3 + 1) 0,
           rgb_values.getD (i * 3 + 2) 0)) }, 1)

/-- `LEDController.clear()`: `self.set_all(0, 0, 0)`. -/
def LEDController.clear (c : LEDController) : LEDController × Nat :=
  c.set_all 0 0 0

/-- `LEDController.cleanup()`: clears, then closes `strip._spi` when
present; the whole body is wrapped in `try ... except: pass`, so no
exception ever escapes — which is why the result type carries no error
case.  The rpi5 driver assigns `led_states` before the possibly
failing `strip.show()`, so the frame is black afterwards even when the
transmission fails. -/
def LEDController.cleanup (c : LEDController) : LEDController :=
  { (c.clear).1 with spiOpen := false }

/-! ## `wyoming_led_service.py`: RPI5 and WS281x controllers -/

/-- State of `RPI5LEDController`: `self.led_states` is the
authoritative frame resent in full on every change. -/
structure RPI5State where
  num_leds : Nat
  led_states : List Color

/-- `RPI5LEDController.set_color`: in range, replaces entry
`led_index` of `led_states`, resends the whole frame
(`strip.set_pixels`) and calls `strip.show()` once; out of range,
does nothing.  The second component counts `show()` calls. -/
def RPI5State.set_color (s : RPI5State) (led_index : Int) (r g b : Nat) :
    RPI5State × Nat :=
  if 0 ≤ led_index ∧ led_index < (s.num_leds : Int) then
    ({ s with led_states := s.led_states.set led_index.toNat (r, g, b) }, 1)
  else
    (s, 0)

/-- `RPI5LEDController.set_all`: replaces the whole `led_states` list
and calls `strip.show()` once. -/
def RPI5State.set_all (s : RPI5State) (r g b : Nat) : RPI5State × Nat :=
  ({ s with led_states := List.replicate s.num_leds (r, g, b) }, 1)

/-- State of `RPI281xLEDController`: `pixels` is the `PixelStrip`
internal buffer written by `setPixelColor`. -/
structure RPI281xState where
  num_leds : Nat
  pixels : List Color

/-- `RPI281xLEDController.set_color`: in range, `setPixelColor` then
one `strip.show()`; out of range, nothing. -/
def RPI281xState.set_color (s : RPI281xState) (led_index : Int) (r g b : Nat) :
    RPI281xState × Nat :=
  if 0 ≤ led_index ∧ led_index < (s.num_leds : Int) then
    ({ s with pixels := s.pixels.set led_index.toNat (r, g, b) }, 1)
  else
    (s, 0)

/-- One step of the base-class loop `LEDController.set_all` in
`wyoming_led_service.py` (which `RPI281xLEDController` inherits):
`self.set_color(i, r, g, b)`, accumulating the `show()` count. -/
def RPI281xState.showStep (r g b : Nat) (acc : RPI281xState × Nat) (i : Nat) :
    RPI281xState × Nat :=
  let t := acc.1.set_color (i : Int) r g b
  (t.1, acc.2 + t.2)

/-- `RPI281xLEDController` has no own `set_all`; the inherited base
method runs `for i in range(self.num_leds): self.set_color(i, r, g, b)`,
so each iteration performs its own `strip.show()`. -/
def RPI281xState.set_all (s : RPI281xState) (r g b : Nat) : RPI281xState × Nat :=
  (List.range s.num_leds).foldl (RPI281xState.showStep r g b) (s, 0)

/-! ## `wyoming_led_service.py`: ReSpeaker APA102 controller -/

/-- `RespeakerLEDController.MAX_BRIGHTNESS = 0b11111`. -/
def MAX_BRIGHTNESS : Nat := 0b11111

/-- `RespeakerLEDController.LED_START = 0b11100000`. -/
def LED_START : Nat := 0b11100000

/-- `RespeakerLEDController.RGB_MAP`: for each channel-order token the
byte offsets (within the 4-byte LED word) that receive the r, g and b
channels, in that order; unknown tokens fall back to the `"rgb"`
entry, exactly as `RGB_MAP.get(order, RGB_MAP["rgb"])` does. -/
def RGB_MAP (order : String) : Nat × Nat × Nat :=
  if order = "rgb" then (3, 2, 1)
  else if order = "rbg" then (3, 1, 2)
  else if order = "grb" then (2, 3, 1)
  else if order = "gbr" then (2, 1, 3)
  else if order = "brg" then (1, 3, 2)
  else if order = "bgr" then (1, 2, 3)
  else (3, 2, 1)

/-- The six values `RGB_MAP` can produce. -/
def rgbPerms : List (Nat × Nat × Nat) :=
  [(3, 2, 1), (3, 1, 2), (2, 3, 1), (2, 1, 3), (1, 3, 2), (1, 2, 3)]

/-- State of `RespeakerLEDController`: `leds` is the flat
`[LED_START, 0, 0, 0] * num_leds` byte buffer, `rgb` the selected
channel-offset triple, `brightness` the configured global brightness,
`spiOpen`/`ledPowerOn` the transport and GPIO side state. -/
structure RespeakerState where
  num_leds : Nat
  brightness : Nat
  rgb : Nat × Nat × Nat
  leds : List Nat
  ledPowerOn : Bool
  spiOpen : Bool

/-- `RespeakerLEDController.__init__(num_leds, ..., brightness, order, ...)`:
lowercases the order token, looks it up in `RGB_MAP`, clamps the
configured brightness to `MAX_BRIGHTNESS`, and initialises the byte
buffer to `[LED_START, 0, 0, 0] * num_leds`; the power GPIO is
asserted and the SPI device opened. -/
def RespeakerState.init (num_leds : Nat) (brightness : Nat) (order : String) :
    RespeakerState :=
  { num_leds := num_leds
    brightness := if brightness > MAX_BRIGHTNESS then MAX_BRIGHTNESS else brightness
    rgb := RGB_MAP (lowerStr order)
    leds := (List.replicate num_leds [LED_START, 0, 0, 0]).flatten
    ledPowerOn := true
    spiOpen := true }

/-- The brightness computation in `RespeakerLEDController.set_color`:
`int((bright_percent * self.brightness / 100.0) + 0.5)`, i.e. the
product scaled by 1/100 and rounded half-up, expressed over `Nat`. -/
def roundedBrightness (bright_percent brightness : Nat) : Nat :=
  (2 * (bright_percent * brightness) + 100) / 200

/-- `RespeakerLEDController.set_color(led_num, r, g, b, bright_percent)`:
returns unchanged when `led_num` is outside `[0, num_leds)`; otherwise
writes byte `4*led_num` with `(brightness & 0b00011111) | LED_START`
and the three channel bytes at the `RGB_MAP` offsets.  The method only
mutates `self.leds` — it performs no SPI transfer (`show` does that). -/
def RespeakerState.set_color (s : RespeakerState) (led_num : Int) (r g b : Nat)
    (bright_percent : Nat) : RespeakerState :=
  if led_num < 0 ∨ (s.num_leds : Int) ≤ led_num then
    s
  else
    let brightness := roundedBrightness bright_percent s.brightness
    let ledstart := (brightness &&& 0b00011111) ||| LED_START
    let start_index := 4 * led_num.toNat
    { s with leds :=
        (((s.leds.set start_index ledstart).set (start_index + s.rgb.1) r).set
            (start_index + s.rgb.2.1) g).set (start_index + s.rgb.2.2) b }

/-- The chunking loop in `RespeakerLEDController.show`:
`while data: spi.xfer2(data[:32]); data = data[32:]`. -/
def chunks (data : List Nat) : List (List Nat) :=
  if data = [] then []
  else data.take 32 :: chunks (data.drop 32)
termination_by data.length
decreasing_by
  have : 0 < data.length := List.length_pos.mpr (by assumption)
  simp [List.length_drop]
  omega

/-- `RespeakerLEDController.show`: one full-frame transmission — the
4-byte zero start frame, the pixel bytes in 32-byte `xfer2` chunks,
then the 4-byte `0xFF` end frame.  Every `xfer2` raises once the SPI
device has been closed, modelled as the error case. -/
def RespeakerState.showFrame (s : RespeakerState) : Except String (List (List Nat)) :=
  if s.spiOpen then
    Except.ok ([[0, 0, 0, 0]] ++ chunks s.leds ++ [[0xFF, 0xFF, 0xFF, 0xFF]])
  else
    Except.error "SPI device closed"

/-- The flat byte stream a successful `show` puts on the wire. -/
def RespeakerState.showStream (s : RespeakerState) : List Nat :=
  match s.showFrame with
  | Except.ok tx => tx.flatten
  | Except.error _ => []

/-- One step of `RespeakerLEDController.set_all`'s loop:
`self.set_color(i, r, g, b)` (default `bright_percent=100`). -/
def RespeakerState.setStep (r g b : Nat) (st : RespeakerState) (k : Nat) :
    RespeakerState :=
  st.set_color (k : Int) r g b 100

/-- The buffer state after `set_all`'s `for i in range(num_leds)` loop. -/
def RespeakerState.setAllLoop (s : RespeakerState) (r g b : Nat) : RespeakerState :=
  (List.range s.num_leds).foldl (RespeakerState.setStep r g b) s

/-- `RespeakerLEDController.set_all(r, g, b)`: sets every pixel in the
buffer, then calls `self.show()` exactly once; the count of `show`
transmissions is returned.  A closed SPI device makes `show` raise. -/
def RespeakerState.set_all (s : RespeakerState) (r g b : Nat) :
    Except String (RespeakerState × Nat) :=
  let s' := s.setAllLoop r g b
  match s'.showFrame with
  | Except.ok _ => Except.ok (s', 1)
  | Except.error e => Except.error e

/-- `clear()` (inherited): `self.set_all(0, 0, 0)`. -/
def RespeakerState.clear (s : RespeakerState) : Except String (RespeakerState × Nat) :=
  s.set_all 0 0 0

/-- `RespeakerLEDController.cleanup()`: `self.clear()`, then the power
GPIO is released and `self.spi.close()` runs.  There is no
`try`/`except` here: an exception from `clear` (e.g. `xfer2` on an
already-closed SPI device) propagates to the caller. -/
def RespeakerState.cleanup (s : RespeakerState) : Except String (RespeakerState × Nat) :=
  match s.clear with
  | Except.error e => Except.error e
  | Except.ok (s', tx) =>
      Except.ok ({ s' with ledPowerOn := false, spiOpen := false }, tx)

/-- The color triple stored for LED `i`: the channel bytes read back
from the `RGB_MAP` offsets of word `i`. -/
def RespeakerState.colorAt (s : RespeakerState) (i : Nat) : Color :=
  (s.leds.getD (4 * i + s.rgb.1) 0,
   s.leds.getD (4 * i + s.rgb.2.1) 0,
   s.leds.getD (4 * i + s.rgb.2.2) 0)

/-- Whether a second `cleanup()` call on a ReSpeaker controller
completes without raising. -/
def secondCleanupOk (s : RespeakerState) : Bool :=
  match s.cleanup with
  | Except.ok q => (q.1.cleanup).toOption.isSome
  | Except.error _ => false

/-! ## `wyoming_led_service.py`: the event handler -/

/-- The Wyoming lifecycle events `LEDEventHandler.handle_event`
dispatches on, in the source's `elif` order. -/
inductive WyomingEvent where
  | streamingStarted : WyomingEvent
  | detection : WyomingEvent
  | voiceStarted : WyomingEvent
  | transcript : WyomingEvent
  | streamingStopped : WyomingEvent
  | runSatellite : WyomingEvent
  | satelliteConnected : WyomingEvent
  | satelliteDisconnected : WyomingEvent

/-- The two effects a `handle_event` body performs: `self.color(rgb)`
(a full-frame `set_all` transmission) and `await asyncio.sleep(t)`
(time in tenths of a second). -/
inductive HandlerAction where
  | setAll : Color → HandlerAction
  | sleepTenths : Nat → HandlerAction

/-- The body of `LEDEventHandler.handle_event` for each event, as the
sequence of actions it performs.  Durations are in tenths of a second
(`asyncio.sleep(1.0)` = 10, `asyncio.sleep(0.3)` = 3); the
satellite-connected flash is the source's `for _ in range(3)` loop. -/
def handlerProgram : WyomingEvent → List HandlerAction
  | WyomingEvent.streamingStarted => [HandlerAction.setAll _YELLOW]
  | WyomingEvent.detection => [HandlerAction.setAll _BLUE, HandlerAction.sleepTenths 10]
  | WyomingEvent.voiceStarted => [HandlerAction.setAll _YELLOW]
  | WyomingEvent.transcript => [HandlerAction.setAll _GREEN, HandlerAction.sleepTenths 10]
  | WyomingEvent.streamingStopped => [HandlerAction.setAll _BLACK]
  | WyomingEvent.runSatellite => [HandlerAction.setAll _BLACK]
  | WyomingEvent.satelliteConnected =>
      (List.replicate 3 [HandlerAction.setAll _GREEN, HandlerAction.sleepTenths 3,
        HandlerAction.setAll _BLACK, HandlerAction.sleepTenths 3]).flatten
  | WyomingEvent.satelliteDisconnected => [HandlerAction.setAll _RED]

/-- Runs a handler body starting at time `t`: returns the timestamped
full-frame transmissions and the completion time. -/
def runActions : Nat → List HandlerAction → List (Nat × Color) × Nat
  | t, [] => ([], t)
  | t, HandlerAction.setAll c :: rest =>
      let q := runActions t rest
      ((t, c) :: q.1, q.2)
  | t, HandlerAction.sleepTenths d :: rest => runActions (t + d) rest

/-- The Wyoming server loop around `handle_event`: events are consumed
strictly in arrival order and each `handle_event` is awaited to
completion before the next event is read, so a handler that is mid
`asyncio.sleep` is never preempted.  Each list entry is an event with
its arrival time; a handler starts at the later of its event's arrival
and the previous handler's completion. -/
def runServer : Nat → List (Nat × WyomingEvent) → List (Nat × Color)
  | _, [] => []
  | t, (a, e) :: rest =>
      let q := runActions (max t a) (handlerProgram e)
      q.1 ++ runServer q.2 rest

/-- The APA102 state of claim C1: 3 LEDs, brightness 31, order "rgb",
after setting pixel 0 to (255,0,0), pixel 1 to (0,255,0) and
pixel 2 to (0,0,255). -/
def apa102DemoState : RespeakerState :=
  (((RespeakerState.init 3 31 "rgb").set_color 0 255 0 0 100).set_color 1 0 255 0
      100).set_color 2 0 0 255 100

/-! ## Helper lemmas -/

theorem chunks_flatten (data : List Nat) : (chunks data).flatten = data := by
  rw [chunks]
  split
  · simp [*]
  · simp only [List.flatten_cons]
    rw [chunks_flatten (data.drop 32)]
    exact List.take_append_drop 32 data
termination_by data.length
decreasing_by
  have : 0 < data.length := List.length_pos.mpr (by assumption)
  simp [List.length_drop]
  omega

theorem getD_set_ne_any {α : Type} (l : List α) (m t : Nat) (v d : α) (h : m ≠ t) :
    (l.set m v).getD t d = l.getD t d := by
  simp [List.getD_eq_getElem?_getD, List.getElem?_set_ne h]

theorem getD_set_eq_any {α : Type} (l : List α) (m : Nat) (v d : α) (h : m < l.length) :
    (l.set m v).getD m d = v := by
  simp [List.getD_eq_getElem?_getD, List.getElem?_set_self h]

theorem land_31_of_le (x : Nat) (h : x ≤ 31) : x &&& 31 = x := by
  interval_cases x <;> rfl

theorem land_lor_LED_START (v : Nat) (h : v ≤ 31) :
    (v &&& 0b00011111) ||| LED_START = LED_START + v := by
  interval_cases v <;> rfl

theorem RGB_MAP_mem_perms (o : String) : RGB_MAP o ∈ rgbPerms := by
  unfold RGB_MAP
  split_ifs <;> decide

theorem rgbPerms_bounds (p : Nat × Nat × Nat) (h : p ∈ rgbPerms) :
    (1 ≤ p.1 ∧ p.1 ≤ 3) ∧ (1 ≤ p.2.1 ∧ p.2.1 ≤ 3) ∧ (1 ≤ p.2.2 ∧ p.2.2 ≤ 3) := by
  simp only [rgbPerms, List.mem_cons, List.not_mem_nil, or_false] at h
  rcases h with h | h | h | h | h | h <;> subst h <;> decide

theorem set_color_num_leds (s : RespeakerState) (i : Int) (r g b p : Nat) :
    (s.set_color i r g b p).num_leds = s.num_leds := by
  unfold RespeakerState.set_color
  split <;> rfl

theorem set_color_rgb (s : RespeakerState) (i : Int) (r g b p : Nat) :
    (s.set_color i r g b p).rgb = s.rgb := by
  unfold RespeakerState.set_color
  split <;> rfl

theorem set_color_brightness (s : RespeakerState) (i : Int) (r g b p : Nat) :
    (s.set_color i r g b p).brightness = s.brightness := by
  unfold RespeakerState.set_color
  split <;> rfl

theorem set_color_spiOpen (s : RespeakerState) (i : Int) (r g b p : Nat) :
    (s.set_color i r g b p).spiOpen = s.spiOpen := by
  unfold RespeakerState.set_color
  split <;> rfl

theorem set_color_length (s : RespeakerState) (i : Int) (r g b p : Nat) :
    (s.set_color i r g b p).leds.length = s.leds.length := by
  unfold RespeakerState.set_color
  split <;> simp [List.length_set]

theorem rgbPerms_nodup (p : Nat × Nat × Nat) (h : p ∈ rgbPerms) :
    p.1 ≠ p.2.1 ∧ p.1 ≠ p.2.2 ∧ p.2.1 ≠ p.2.2 := by
  simp only [rgbPerms, List.mem_cons, List.not_mem_nil, or_false] at h
  rcases h with h | h | h | h | h | h <;> subst h <;> decide

theorem getD_chain_ne (l : List Nat) (w0 w1 w2 w3 t : Nat) (a x y z : Nat)
    (h0 : w0 ≠ t) (h1 : w1 ≠ t) (h2 : w2 ≠ t) (h3 : w3 ≠ t) :
    ((((l.set w0 a).set w1 x).set w2 y).set w3 z).getD t 0 = l.getD t 0 := by
  rw [getD_set_ne_any _ w3 t z 0 h3, getD_set_ne_any _ w2 t y 0 h2,
      getD_set_ne_any _ w1 t x 0 h1, getD_set_ne_any _ w0 t a 0 h0]

theorem getD_chain_eq1 (l : List Nat) (w0 w1 w2 w3 : Nat) (a x y z : Nat)
    (h2 : w2 ≠ w1) (h3 : w3 ≠ w1) (hlt : w1 < l.length) :
    ((((l.set w0 a).set w1 x).set w2 y).set w3 z).getD w1 0 = x := by
  rw [getD_set_ne_any _ w3 w1 z 0 h3, getD_set_ne_any _ w2 w1 y 0 h2,
      getD_set_eq_any _ w1 x 0 (by simp [List.length_set]; omega)]

theorem getD_chain_eq2 (l : List Nat) (w0 w1 w2 w3 : Nat) (a x y z : Nat)
    (h3 : w3 ≠ w2) (hlt : w2 < l.length) :
    ((((l.set w0 a).set w1 x).set w2 y).set w3 z).getD w2 0 = y := by
  rw [getD_set_ne_any _ w3 w2 z 0 h3,
      getD_set_eq_any _ w2 y 0 (by simp [List.length_set]; omega)]

theorem getD_chain_eq3 (l : List Nat) (w0 w1 w2 w3 : Nat) (a x y z : Nat)
    (hlt : w3 < l.length) :
    ((((l.set w0 a).set w1 x).set w2 y).set w3 z).getD w3 0 = z := by
  rw [getD_set_eq_any _ w3 z 0 (by simp [List.length_set]; omega)]

theorem colorAt_set_color_other (s : RespeakerState) (i k : Nat) (r g b p : Nat)
    (hk : k ≠ i) (hperm : s.rgb ∈ rgbPerms) :
    (s.set_color (i : Int) r g b p).colorAt k = s.colorAt k := by
  obtain ⟨⟨h11, h13⟩, ⟨h21, h23⟩, h31, h33⟩ := rgbPerms_bounds s.rgb hperm
  unfold RespeakerState.set_color
  split
  · rfl
  · unfold RespeakerState.colorAt
    dsimp only
    simp only [Int.toNat_natCast, Prod.mk.injEq]
    refine ⟨?_, ?_, ?_⟩ <;>
      exact getD_chain_ne _ _ _ _ _ _ _ _ _ _ (by omega) (by omega) (by omega) (by omega)

theorem colorAt_set_color_self (s : RespeakerState) (i : Nat) (r g b p : Nat)
    (hi : i < s.num_leds) (hlen : s.leds.length = 4 * s.num_leds)
    (hperm : s.rgb ∈ rgbPerms) :
    (s.set_color (i : Int) r g b p).colorAt i = (r, g, b) := by
  obtain ⟨⟨h11, h13⟩, ⟨h21, h23⟩, h31, h33⟩ := rgbPerms_bounds s.rgb hperm
  obtain ⟨hd1, hd2, hd3⟩ := rgbPerms_nodup s.rgb hperm
  unfold RespeakerState.set_color
  rw [if_neg (by omega : ¬((i : Int) < 0 ∨ (s.num_leds : Int) ≤ (i : Int)))]
  unfold RespeakerState.colorAt
  dsimp only
  simp only [Int.toNat_natCast, Prod.mk.injEq]
  refine ⟨?_, ?_, ?_⟩
  · exact getD_chain_eq1 _ _ _ _ _ _ _ _ _ (by omega) (by omega) (by omega)
  · exact getD_chain_eq2 _ _ _ _ _ _ _ _ _ (by omega) (by omega)
  · exact getD_chain_eq3 _ _ _ _ _ _ _ _ _ (by omega)

theorem foldl_setStep_num_leds (l : List Nat) (s : RespeakerState) (r g b : Nat) :
    (l.foldl (RespeakerState.setStep r g b) s).num_leds = s.num_leds := by
  induction l generalizing s with
  | nil => rfl
  | cons x xs ih =>
      rw [List.foldl_cons, ih]
      simp [RespeakerState.setStep, set_color_num_leds]

theorem foldl_setStep_rgb (l : List Nat) (s : RespeakerState) (r g b : Nat) :
    (l.foldl (RespeakerState.setStep r g b) s).rgb = s.rgb := by
  induction l generalizing s with
  | nil => rfl
  | cons x xs ih =>
      rw [List.foldl_cons, ih]
      simp [RespeakerState.setStep, set_color_rgb]

theorem foldl_setStep_spiOpen (l : List Nat) (s : RespeakerState) (r g b : Nat) :
    (l.foldl (RespeakerState.setStep r g b) s).spiOpen = s.spiOpen := by
  induction l generalizing s with
  | nil => rfl
  | cons x xs ih =>
      rw [List.foldl_cons, ih]
      simp [RespeakerState.setStep, set_color_spiOpen]

theorem foldl_setStep_length (l : List Nat) (s : RespeakerState) (r g b : Nat) :
    (l.foldl (RespeakerState.setStep r g b) s).leds.length = s.leds.length := by
  induction l generalizing s with
  | nil => rfl
  | cons x xs ih =>
      rw [List.foldl_cons, ih]
      simp [RespeakerState.setStep, set_color_length]

theorem foldl_setStep_colorAt (l : List Nat) (s : RespeakerState) (r g b : Nat)
    (hlen : s.leds.length = 4 * s.num_leds) (hperm : s.rgb ∈ rgbPerms)
    (i : Nat) (hi : i < s.num_leds) :
    (l.foldl (RespeakerState.setStep r g b) s).colorAt i =
      if i ∈ l then (r, g, b) else s.colorAt i := by
  induction l generalizing s with
  | nil => simp
  | cons x xs ih =>
      rw [List.foldl_cons]
      have hlen' : (RespeakerState.setStep r g b s x).leds.length =
          4 * (RespeakerState.setStep r g b s x).num_leds := by
        unfold RespeakerState.setStep
        rw [set_color_length, set_color_num_leds]
        exact hlen
      have hperm' : (RespeakerState.setStep r g b s x).rgb ∈ rgbPerms := by
        unfold RespeakerState.setStep
        rw [set_color_rgb]
        exact hperm
      have hi' : i < (RespeakerState.setStep r g b s x).num_leds := by
        unfold RespeakerState.setStep
        rw [set_color_num_leds]
        exact hi
      rw [ih _ hlen' hperm' hi']
      by_cases hmem : i ∈ xs
      · simp [hmem]
      · by_cases hix : i = x
        · subst hix
          simp only [hmem, if_false, List.mem_cons, true_or, if_true]
          exact colorAt_set_color_self s i r g b 100 hi hlen hperm
        · have hnot : ¬(i ∈ x :: xs) := by simp [hix, hmem]
          simp only [hmem, if_false, hnot]
          exact colorAt_set_color_other s x i r g b 100 hix hperm

theorem setAllLoop_colorAt (s : RespeakerState) (r g b : Nat)
    (hlen : s.leds.length = 4 * s.num_leds) (hperm : s.rgb ∈ rgbPerms)
    (i : Nat) (hi : i < s.num_leds) :
    (s.setAllLoop r g b).colorAt i = (r, g, b) := by
  unfold RespeakerState.setAllLoop
  rw [foldl_setStep_colorAt _ s r g b hlen hperm i hi]
  simp [List.mem_range, hi]

theorem setAllLoop_spiOpen (s : RespeakerState) (r g b : Nat) :
    (s.setAllLoop r g b).spiOpen = s.spiOpen := by
  unfold RespeakerState.setAllLoop
  exact foldl_setStep_spiOpen _ s r g b

theorem setAllLoop_num_leds (s : RespeakerState) (r g b : Nat) :
    (s.setAllLoop r g b).num_leds = s.num_leds := by
  unfold RespeakerState.setAllLoop
  exact foldl_setStep_num_leds _ s r g b

theorem rpix_set_color_num_leds (s : RPI281xState) (i : Int) (r g b : Nat) :
    ((s.set_color i r g b).1).num_leds = s.num_leds := by
  unfold RPI281xState.set_color
  split <;> rfl

theorem foldl_showStep_count (l : List Nat) (s : RPI281xState) (k0 r g b : Nat)
    (h : ∀ x ∈ l, x < s.num_leds) :
    ((l.foldl (RPI281xState.showStep r g b) (s, k0)).2) = k0 + l.length := by
  induction l generalizing s k0 with
  | nil => simp
  | cons x xs ih =>
      rw [List.foldl_cons]
      have hx : x < s.num_leds := h x (List.mem_cons_self x xs)
      have hstep : RPI281xState.showStep r g b (s, k0) x =
          ((s.set_color (x : Int) r g b).1, k0 + 1) := by
        unfold RPI281xState.showStep RPI281xState.set_color
        rw [if_pos (by omega : (0 : Int) ≤ (x : Int) ∧ (x : Int) < (s.num_leds : Int))]
      rw [hstep, ih]
      · simp [List.length_cons]
        omega
      · intro y hy
        rw [rpix_set_color_num_leds]
        exact h y (List.mem_cons_of_mem x hy)

theorem rpix_set_all_count (s : RPI281xState) (r g b : Nat) :
    (s.set_all r g b).2 = s.num_leds := by
  unfold RPI281xState.set_all
  rw [foldl_showStep_count]
  · simp
  · intro x hx
    exact List.mem_range.mp hx

theorem apa102Demo_stream_eval :
    apa102DemoState.showStream =
      [0, 0, 0, 0,
       255, 0, 0, 255,
       255, 0, 255, 0,
       255, 255, 0, 0,
       255, 255, 255, 255] := by
  have hleds : apa102DemoState.leds =
      [255, 0, 0, 255, 255, 0, 255, 0, 255, 255, 0, 0] := by decide
  have hopen : apa102DemoState.spiOpen = true := by decide
  have hframe : apa102DemoState.showFrame =
      Except.ok ([[0, 0, 0, 0]] ++ chunks apa102DemoState.leds ++
        [[0xFF, 0xFF, 0xFF, 0xFF]]) := by
    unfold RespeakerState.showFrame
    rw [hopen]
    rfl
  unfold RespeakerState.showStream
  rw [hframe]
  dsimp only
  simp only [List.flatten_append, List.flatten_cons, List.flatten_nil, chunks_flatten, hleds]
  rfl

/-- Claim C1, counterexample: with `led_count = 3`, brightness 31, order
`"rgb"` and colors `[(255,0,0), (0,255,0), (0,0,255)]`, the transmitted
APA102 byte stream is NOT the claimed
`00 00 00 00 | FF FF 00 00 | FF 00 FF 00 | FF 00 00 FF | FF FF FF FF`:
the `RGB_MAP` entry for `"rgb"` is `[3, 2, 1]`, so red lands in byte 3
of each LED word, not byte 1. -/
theorem C1_counterexample :
    apa102DemoState.showStream ≠
      [0, 0, 0, 0,
       255, 255, 0, 0,
       255, 0, 255, 0,
       255, 0, 0, 255,
       255, 255, 255, 255] := by
  rw [apa102Demo_stream_eval]
  decide

/-- Claim C1, amended: encoding that frame produces a 4-byte zero start
frame, then per LED a word whose byte 0 is `0xE0 ||| 31 = 0xFF` and whose
bytes 1–3 carry B, G, R in that order (the source's `RGB_MAP["rgb"] =
[3, 2, 1]` places R at byte 3, G at byte 2, B at byte 1), then a 4-byte
`0xFF` end frame: `00 00 00 00 | FF 00 00 FF | FF 00 FF 00 | FF FF 00 00 |
FF FF FF FF`. -/
theorem C1_apa102_stream_amended :
    apa102DemoState.showStream =
      [0, 0, 0, 0,
       255, 0, 0, 255,
       255, 0, 255, 0,
       255, 255, 0, 0,
       255, 255, 255, 255] :=
  apa102Demo_stream_eval

/-- Claim C2, counterexample: with `satellite-connected` arriving at
time 0 and `satellite-disconnected` at time 0.1s (1 tenth), the handler
finishes the full 1.8s flash before the disconnect is processed, so
Green/Black flash frames ARE transmitted after the cancelling event
arrives (at tenths 3, 6, 9, 12, 15), refuting the claimed immediate
abandonment. -/
theorem C2_counterexample :
    runServer 0 [(0, WyomingEvent.satelliteConnected),
        (1, WyomingEvent.satelliteDisconnected)] =
      [(0, _GREEN), (3, _BLACK), (6, _GREEN), (9, _BLACK), (12, _GREEN),
       (15, _BLACK), (18, _RED)] ∧
    (runServer 0 [(0, WyomingEvent.satelliteConnected),
        (1, WyomingEvent.satelliteDisconnected)]).filter
      (fun q => decide (1 < q.1 ∧ (q.2 = _GREEN ∨ q.2 = _BLACK))) ≠ [] := by
  constructor
  · decide
  · decide

/-- Claim C2, amended: the Wyoming server awaits each `handle_event` to
completion, so a `satellite-disconnected` event arriving at any time
during the 1.8s `SatelliteConnecting` flash does not interrupt it: all
remaining Green/Black flash frames are still transmitted (at tenths
0, 3, 6, 9, 12, 15) and the Red frame follows only at 1.8s; the final
transmitted frame is solid Red. -/
theorem C2_run_to_completion (a : Nat) (ha : a ≤ 18) :
    runServer 0 [(0, WyomingEvent.satelliteConnected),
        (a, WyomingEvent.satelliteDisconnected)] =
      [(0, _GREEN), (3, _BLACK), (6, _GREEN), (9, _BLACK), (12, _GREEN),
       (15, _BLACK), (18, _RED)] := by
  have h18 : max (18 : Nat) a = 18 := by omega
  simp [runServer, runActions, handlerProgram, h18]

/-- Witness for C2: the amended theorem at arrival time 0.1s. -/
theorem C2_witness :
    runServer 0 [(0, WyomingEvent.satelliteConnected),
        (1, WyomingEvent.satelliteDisconnected)] =
      [(0, _GREEN), (3, _BLACK), (6, _GREEN), (9, _BLACK), (12, _GREEN),
       (15, _BLACK), (18, _RED)] :=
  C2_run_to_completion 1 (by decide)

/-- Claim C3, counterexample: `RPI281xLEDController` inherits the base
class `set_all`, which calls `self.set_color` (and hence `strip.show()`)
once per pixel: with 3 LEDs one `set_all` performs 3 transmissions,
not 1. -/
theorem C3_counterexample :
    (RPI281xState.set_all ⟨3, [(0, 0, 0), (0, 0, 0), (0, 0, 0)]⟩ 255 0 0).2 = 3 ∧
    (3 : Nat) ≠ 1 := by
  constructor
  · decide
  · decide

/-- Claim C3, amended: the CLI controller's `set_color` (in range),
`set_all`, `clear` and valid `set_pattern` each transmit exactly once,
as do `RPI5LEDController.set_color` (in range) and `set_all`, and
`RPI281xLEDController.set_color` (in range); but the inherited
`RPI281xLEDController` `set_all` transmits once per pixel
(`num_leds` times), and `RespeakerLEDController.set_color` transmits
nothing at all (it only writes the buffer; a separate `show()` —
performed once by its `set_all` — does the transmission). -/
theorem C3_transmissions_amended
    (c : LEDController) (s5 : RPI5State) (sx : RPI281xState) (sr : RespeakerState)
    (i : Nat) (r g b : Nat) (vals : List Nat)
    (hic : i < c.led_count) (hi5 : i < s5.num_leds) (hix : i < sx.num_leds)
    (hvals : vals.length = c.led_count * 3) (hopen : sr.spiOpen = true) :
    (c.set_color (i : Int) r g b).2 = 1 ∧
    (c.set_all r g b).2 = 1 ∧
    (c.clear).2 = 1 ∧
    (∃ c', c.set_pattern vals = Except.ok (c', 1)) ∧
    (s5.set_color (i : Int) r g b).2 = 1 ∧
    (s5.set_all r g b).2 = 1 ∧
    (sx.set_color (i : Int) r g b).2 = 1 ∧
    (sx.set_all r g b).2 = sx.num_leds ∧
    sr.set_all r g b = Except.ok (sr.setAllLoop r g b, 1) := by
  refine ⟨?_, rfl, rfl, ?_, ?_, rfl, ?_, rpix_set_all_count sx r g b, ?_⟩
  · unfold LEDController.set_color
    rw [if_pos (by omega : (0 : Int) ≤ (i : Int) ∧ (i : Int) < (c.led_count : Int))]
  · refine ⟨{ c with frame := (List.range c.led_count).map (fun j =>
        (vals.getD (j * 3) 0, vals.getD (j * 3 + 1) 0, vals.getD (j * 3 + 2) 0)) }, ?_⟩
    unfold LEDController.set_pattern
    rw [if_neg (by omega : ¬vals.length ≠ c.led_count * 3)]
  · unfold RPI5State.set_color
    rw [if_pos (by omega : (0 : Int) ≤ (i : Int) ∧ (i : Int) < (s5.num_leds : Int))]
  · unfold RPI281xState.set_color
    rw [if_pos (by omega : (0 : Int) ≤ (i : Int) ∧ (i : Int) < (sx.num_leds : Int))]
  · have hshow : (sr.setAllLoop r g b).showFrame =
        Except.ok ([[0, 0, 0, 0]] ++ chunks (sr.setAllLoop r g b).leds ++
          [[0xFF, 0xFF, 0xFF, 0xFF]]) := by
      unfold RespeakerState.showFrame
      rw [setAllLoop_spiOpen, hopen]
      rfl
    unfold RespeakerState.set_all
    dsimp only
    rw [hshow]

/-- Witness for C3 at concrete controllers with 2 LEDs. -/
theorem C3_witness :
    ((⟨2, DriverType.rpi5_ws2812, [(0,0,0), (0,0,0)], true⟩ : LEDController).set_color
        (0 : Int) 9 8 7).2 = 1 ∧
    ((⟨2, DriverType.rpi5_ws2812, [(0,0,0), (0,0,0)], true⟩ : LEDController).set_all 9 8 7).2 = 1 ∧
    ((⟨2, DriverType.rpi5_ws2812, [(0,0,0), (0,0,0)], true⟩ : LEDController).clear).2 = 1 ∧
    (∃ c', (⟨2, DriverType.rpi5_ws2812, [(0,0,0), (0,0,0)], true⟩ : LEDController).set_pattern
        [1, 2, 3, 4, 5, 6] = Except.ok (c', 1)) ∧
    ((⟨2, [(0,0,0), (0,0,0)]⟩ : RPI5State).set_color (0 : Int) 9 8 7).2 = 1 ∧
    ((⟨2, [(0,0,0), (0,0,0)]⟩ : RPI5State).set_all 9 8 7).2 = 1 ∧
    ((⟨2, [(0,0,0), (0,0,0)]⟩ : RPI281xState).set_color (0 : Int) 9 8 7).2 = 1 ∧
    ((⟨2, [(0,0,0), (0,0,0)]⟩ : RPI281xState).set_all 9 8 7).2 =
      (⟨2, [(0,0,0), (0,0,0)]⟩ : RPI281xState).num_leds ∧
    (RespeakerState.init 2 31 "rgb").set_all 9 8 7 =
      Except.ok ((RespeakerState.init 2 31 "rgb").setAllLoop 9 8 7, 1) :=
  C3_transmissions_amended
    ⟨2, DriverType.rpi5_ws2812, [(0,0,0), (0,0,0)], true⟩
    ⟨2, [(0,0,0), (0,0,0)]⟩ ⟨2, [(0,0,0), (0,0,0)]⟩ (RespeakerState.init 2 31 "rgb")
    0 9 8 7 [1, 2, 3, 4, 5, 6]
    (by decide) (by decide) (by decide) (by decide) (by decide)

/-- Claim C4: `LEDController.__init__` only rejects `led_count > 10`
(raising `ValueError`); the lower bound documented in the CLI help
(`1-10`) is not enforced, so construction with `led_count = 0`
succeeds while 11 and 1000 fail. -/
theorem C4_construction_bounds :
    (LEDController.init 0 DriverType.rpi5_ws2812).toOption.isSome = true ∧
    (LEDController.init 1 DriverType.rpi5_ws2812).toOption.isSome = true ∧
    (LEDController.init 10 DriverType.rpi5_ws2812).toOption.isSome = true ∧
    (LEDController.init 11 DriverType.rpi5_ws2812).toOption.isSome = false ∧
    (LEDController.init 1000 DriverType.rpi5_ws2812).toOption.isSome = false := by
  refine ⟨?_, ?_, ?_, ?_, ?_⟩ <;> decide

/-- Claim C5: the event-to-light mapping of `handle_event` —
streaming-started and voice-started give solid Yellow; wake detection
gives Blue followed by a 1.0s hold; a transcript gives Green with a
1.0s hold; streaming-stopped and satellite-run give Black;
satellite-connected plays 3 Green/Black cycles at 0.3s per half-cycle
(1.8s total); satellite-disconnected gives solid Red. -/
theorem C5_event_to_light_mapping :
    runActions 0 (handlerProgram WyomingEvent.streamingStarted) = ([(0, _YELLOW)], 0) ∧
    runActions 0 (handlerProgram WyomingEvent.voiceStarted) = ([(0, _YELLOW)], 0) ∧
    runActions 0 (handlerProgram WyomingEvent.detection) = ([(0, _BLUE)], 10) ∧
    runActions 0 (handlerProgram WyomingEvent.transcript) = ([(0, _GREEN)], 10) ∧
    runActions 0 (handlerProgram WyomingEvent.streamingStopped) = ([(0, _BLACK)], 0) ∧
    runActions 0 (handlerProgram WyomingEvent.runSatellite) = ([(0, _BLACK)], 0) ∧
    runActions 0 (handlerProgram WyomingEvent.satelliteConnected) =
      ([(0, _GREEN), (3, _BLACK), (6, _GREEN), (9, _BLACK), (12, _GREEN),
        (15, _BLACK)], 18) ∧
    runActions 0 (handlerProgram WyomingEvent.satelliteDisconnected) = ([(0, _RED)], 0) := by
  refine ⟨?_, ?_, ?_, ?_, ?_, ?_, ?_, ?_⟩ <;> decide

theorem getD_chain_eq0 (l : List Nat) (w0 w1 w2 w3 : Nat) (a x y z : Nat)
    (h1 : w1 ≠ w0) (h2 : w2 ≠ w0) (h3 : w3 ≠ w0) (hlt : w0 < l.length) :
    ((((l.set w0 a).set w1 x).set w2 y).set w3 z).getD w0 0 = a := by
  rw [getD_set_ne_any _ w3 w0 z 0 h3, getD_set_ne_any _ w2 w0 y 0 h2,
      getD_set_ne_any _ w1 w0 x 0 h1, getD_set_eq_any _ w0 a 0 hlt]

/-- Claim C6, counterexample: with configured brightness 31 and a
per-pixel request of 200 percent, the effective brightness
`int(200 * 31 / 100.0 + 0.5) = 62` is masked by `& 0b11111` to 30 —
wrapped, not clamped (clamping to `[0, 31]` would give 31) — before
`| 0xE0` produces the stored byte `0xFE`. -/
theorem C6_counterexample :
    ((RespeakerState.init 1 31 "rgb").set_color 0 10 20 30 200).leds.getD 0 0 = 254 ∧
    roundedBrightness 200 31 = 62 ∧
    min (roundedBrightness 200 31) 31 = 31 ∧
    (254 : Nat) &&& 31 = 30 ∧
    (30 : Nat) ≠ 31 := by
  refine ⟨?_, ?_, ?_, ?_, ?_⟩ <;> decide

/-- Claim C6, amended: a configured brightness above 31 is clamped to
31 at construction (40 is stored as 31, and the stored value never
exceeds 31); the per-pixel effective brightness
`round(percent/100 * brightness)` is masked to its low 5 bits rather
than clamped, which agrees with clamping exactly when the requested
percentage is at most 100 — in that case the effective value already
lies in `[0, 31]`, the mask is the identity, and the stored word byte 0
is `0xE0 + effective`. -/
theorem C6_brightness_amended (n cfg p r g b i : Nat) (o : String) (s : RespeakerState)
    (hp : p ≤ 100) (hb : s.brightness ≤ 31)
    (hi : i < s.num_leds) (hlen : s.leds.length = 4 * s.num_leds)
    (hperm : s.rgb ∈ rgbPerms) :
    (RespeakerState.init n cfg o).brightness ≤ 31 ∧
    (RespeakerState.init n 40 o).brightness = 31 ∧
    roundedBrightness p s.brightness ≤ 31 ∧
    roundedBrightness p s.brightness &&& 31 = roundedBrightness p s.brightness ∧
    (s.set_color (i : Int) r g b p).leds.getD (4 * i) 0 =
      LED_START + roundedBrightness p s.brightness := by
  have hle : roundedBrightness p s.brightness ≤ 31 := by
    have h1 : p * s.brightness ≤ 100 * 31 := Nat.mul_le_mul hp hb
    unfold roundedBrightness
    omega
  obtain ⟨⟨h11, h13⟩, ⟨h21, h23⟩, h31, h33⟩ := rgbPerms_bounds s.rgb hperm
  refine ⟨?_, ?_, hle, land_31_of_le _ hle, ?_⟩
  · unfold RespeakerState.init MAX_BRIGHTNESS
    dsimp only
    split <;> omega
  · unfold RespeakerState.init MAX_BRIGHTNESS
    norm_num
  · unfold RespeakerState.set_color
    rw [if_neg (by omega : ¬((i : Int) < 0 ∨ (s.num_leds : Int) ≤ (i : Int)))]
    dsimp only
    simp only [Int.toNat_natCast]
    rw [getD_chain_eq0 _ _ _ _ _ _ _ _ _ (by omega) (by omega) (by omega) (by omega)]
    exact land_lor_LED_START _ hle

/-- Witness for C6 at a 3-LED controller with brightness 31, full
100-percent pixel request at index 0. -/
theorem C6_witness :
    (RespeakerState.init 3 40 "rgb").brightness ≤ 31 ∧
    (RespeakerState.init 3 40 "rgb").brightness = 31 ∧
    roundedBrightness 100 (RespeakerState.init 3 31 "rgb").brightness ≤ 31 ∧
    roundedBrightness 100 (RespeakerState.init 3 31 "rgb").brightness &&& 31 =
      roundedBrightness 100 (RespeakerState.init 3 31 "rgb").brightness ∧
    ((RespeakerState.init 3 31 "rgb").set_color (0 : Int) 1 2 3 100).leds.getD (4 * 0) 0 =
      LED_START + roundedBrightness 100 (RespeakerState.init 3 31 "rgb").brightness :=
  C6_brightness_amended 3 40 100 1 2 3 0 "rgb" (RespeakerState.init 3 31 "rgb")
    (by decide) (by decide) (by decide) (by decide) (by decide)

/-- Claim C7, counterexample: `RespeakerLEDController.cleanup` is not
idempotent: the first call succeeds (and closes the SPI device), but a
second call runs `clear -> set_all -> show -> spi.xfer2` on the closed
device and raises instead of completing. -/
theorem C7_counterexample :
    ((RespeakerState.init 3 31 "rgb").cleanup).toOption.isSome = true ∧
    secondCleanupOk (RespeakerState.init 3 31 "rgb") = false := by
  constructor
  · decide
  · decide

/-- Claim C7, amended: the CLI `LEDController.cleanup` is idempotent
and never raises (its body is wrapped in a blanket `except: pass`, so
it is a total function) and leaves the authoritative frame all-black
after each of two consecutive calls; the `RespeakerLEDController`'s
`cleanup`, by contrast, succeeds once — blanking every stored color and
closing the SPI device — but a second call raises because it
retransmits through the already-closed SPI handle. -/
theorem C7_cleanup_amended (c : LEDController) (s : RespeakerState)
    (hopen : s.spiOpen = true) (hlen : s.leds.length = 4 * s.num_leds)
    (hperm : s.rgb ∈ rgbPerms) :
    c.cleanup.frame = List.replicate c.led_count (0, 0, 0) ∧
    c.cleanup.cleanup.frame = List.replicate c.led_count (0, 0, 0) ∧
    (∃ s₁ t, s.cleanup = Except.ok (s₁, t) ∧
      (∀ i, i < s₁.num_leds → s₁.colorAt i = (0, 0, 0)) ∧
      s₁.spiOpen = false ∧
      (s₁.cleanup).toOption = none) := by
  have hshow : (s.setAllLoop 0 0 0).showFrame =
      Except.ok ([[0, 0, 0, 0]] ++ chunks (s.setAllLoop 0 0 0).leds ++
        [[0xFF, 0xFF, 0xFF, 0xFF]]) := by
    unfold RespeakerState.showFrame
    rw [setAllLoop_spiOpen, hopen]
    rfl
  have hclear : s.clear = Except.ok (s.setAllLoop 0 0 0, 1) := by
    unfold RespeakerState.clear RespeakerState.set_all
    dsimp only
    rw [hshow]
  have hclean : s.cleanup =
      Except.ok ({ s.setAllLoop 0 0 0 with ledPowerOn := false, spiOpen := false }, 1) := by
    unfold RespeakerState.cleanup
    rw [hclear]
  refine ⟨rfl, rfl, ⟨_, _, hclean, ?_, rfl, ?_⟩⟩
  · intro i hi
    have hi' : i < s.num_leds := by
      have hn : (s.setAllLoop 0 0 0).num_leds = s.num_leds := setAllLoop_num_leds s 0 0 0
      exact hn ▸ hi
    exact setAllLoop_colorAt s 0 0 0 hlen hperm i hi'
  · have hclosed : (({ s.setAllLoop 0 0 0 with ledPowerOn := false, spiOpen := false} :
        RespeakerState).setAllLoop 0 0 0).spiOpen = false := by
      rw [setAllLoop_spiOpen]
    unfold RespeakerState.cleanup RespeakerState.clear RespeakerState.set_all
      RespeakerState.showFrame
    dsimp only
    rw [hclosed]
    rfl

/-- Witness for C7 at a 3-LED CLI controller and the 3-LED brightness-31
ReSpeaker controller. -/
theorem C7_witness :
    (⟨3, DriverType.rpi5_ws2812, [(1,1,1), (2,2,2), (3,3,3)], true⟩ :
        LEDController).cleanup.frame = List.replicate 3 (0, 0, 0) ∧
    (⟨3, DriverType.rpi5_ws2812, [(1,1,1), (2,2,2), (3,3,3)], true⟩ :
        LEDController).cleanup.cleanup.frame = List.replicate 3 (0, 0, 0) ∧
    (∃ s₁ t, (RespeakerState.init 3 31 "rgb").cleanup = Except.ok (s₁, t) ∧
      (∀ i, i < s₁.num_leds → s₁.colorAt i = (0, 0, 0)) ∧
      s₁.spiOpen = false ∧
      (s₁.cleanup).toOption = none) :=
  C7_cleanup_amended
    ⟨3, DriverType.rpi5_ws2812, [(1,1,1), (2,2,2), (3,3,3)], true⟩
    (RespeakerState.init 3 31 "rgb") (by decide) (by decide) (by decide)

/-- Claim C8: `set_pattern` rejects any flat value list whose length
differs from `3 * led_count` with exit code 1 and no transmission
(`sys.exit(1)` runs before the strip is touched); with the exact
length, every pixel `i` is set from the consecutive triple
`rgb_values[i*3 : i*3+3]` and one transmission occurs. -/
theorem C8_pattern_length (c : LEDController) (vals : List Nat) :
    (vals.length ≠ c.led_count * 3 → c.set_pattern vals = Except.error 1) ∧
    (vals.length = c.led_count * 3 →
      ∃ c', c.set_pattern vals = Except.ok (c', 1) ∧
        ∀ i, i < c.led_count → c'.frame.getD i (0, 0, 0) =
          (vals.getD (i * 3) 0, vals.getD (i * 3 + 1) 0, vals.getD (i * 3 + 2) 0)) := by
  constructor
  · intro h
    unfold LEDController.set_pattern
    rw [if_pos h]
  · intro h
    refine ⟨{ c with frame := (List.range c.led_count).map (fun j =>
        (vals.getD (j * 3) 0, vals.getD (j * 3 + 1) 0, vals.getD (j * 3 + 2) 0)) }, ?_, ?_⟩
    · unfold LEDController.set_pattern
      rw [if_neg (by omega : ¬vals.length ≠ c.led_count * 3)]
    · intro i hi
      dsimp only
      rw [List.getD_eq_getElem?_getD, List.getElem?_map, List.getElem?_range hi]
      rfl

/-- Witness for C8: a 2-LED controller rejects a 3-value list and
accepts a 6-value list, placing the two triples in order. -/
theorem C8_witness :
    (⟨2, DriverType.rpi5_ws2812, [(0,0,0), (0,0,0)], true⟩ : LEDController).set_pattern
      [1, 2, 3] = Except.error 1 ∧
    (∃ c', (⟨2, DriverType.rpi5_ws2812, [(0,0,0), (0,0,0)], true⟩ :
        LEDController).set_pattern [1, 2, 3, 4, 5, 6] = Except.ok (c', 1) ∧
      ∀ i, i < (⟨2, DriverType.rpi5_ws2812, [(0,0,0), (0,0,0)], true⟩ :
          LEDController).led_count → c'.frame.getD i (0, 0, 0) =
        (([1, 2, 3, 4, 5, 6] : List Nat).getD (i * 3) 0,
         ([1, 2, 3, 4, 5, 6] : List Nat).getD (i * 3 + 1) 0,
         ([1, 2, 3, 4, 5, 6] : List Nat).getD (i * 3 + 2) 0)) :=
  ⟨(C8_pattern_length ⟨2, DriverType.rpi5_ws2812, [(0,0,0), (0,0,0)], true⟩
      [1, 2, 3]).1 (by decide),
   (C8_pattern_length ⟨2, DriverType.rpi5_ws2812, [(0,0,0), (0,0,0)], true⟩
      [1, 2, 3, 4, 5, 6]).2 (by decide)⟩

/-- Claim C9: for an in-range index `i`, `set_color` updates the
authoritative frame entry at `i` to the requested color and leaves
every other index exactly as it was — shown for the CLI controller,
the RPI5 controller, and (at the level of the stored channel bytes of
each LED word) the ReSpeaker APA102 controller. -/
theorem C9_set_pixel_localized
    (c : LEDController) (s5 : RPI5State) (sr : RespeakerState)
    (i r g b p : Nat)
    (hic : i < c.led_count) (hfc : c.frame.length = c.led_count)
    (hi5 : i < s5.num_leds) (hf5 : s5.led_states.length = s5.num_leds)
    (hisr : i < sr.num_leds) (hlen : sr.leds.length = 4 * sr.num_leds)
    (hperm : sr.rgb ∈ rgbPerms) :
    (c.set_color (i : Int) r g b).1.frame.getD i (0, 0, 0) = ((r, g, b) : Color) ∧
    (∀ k, k ≠ i →
      (c.set_color (i : Int) r g b).1.frame.getD k (0, 0, 0) = c.frame.getD k (0, 0, 0)) ∧
    (s5.set_color (i : Int) r g b).1.led_states.getD i (0, 0, 0) = ((r, g, b) : Color) ∧
    (∀ k, k ≠ i →
      (s5.set_color (i : Int) r g b).1.led_states.getD k (0, 0, 0) =
        s5.led_states.getD k (0, 0, 0)) ∧
    (sr.set_color (i : Int) r g b p).colorAt i = (r, g, b) ∧
    (∀ k, k ≠ i → (sr.set_color (i : Int) r g b p).colorAt k = sr.colorAt k) := by
  refine ⟨?_, ?_, ?_, ?_,
    colorAt_set_color_self sr i r g b p hisr hlen hperm,
    fun k hk => colorAt_set_color_other sr i k r g b p hk hperm⟩
  · unfold LEDController.set_color
    rw [if_pos (by omega : (0 : Int) ≤ (i : Int) ∧ (i : Int) < (c.led_count : Int))]
    dsimp only
    simp only [Int.toNat_natCast]
    exact getD_set_eq_any _ _ _ _ (by omega)
  · intro k hk
    unfold LEDController.set_color
    rw [if_pos (by omega : (0 : Int) ≤ (i : Int) ∧ (i : Int) < (c.led_count : Int))]
    dsimp only
    simp only [Int.toNat_natCast]
    exact getD_set_ne_any _ _ _ _ _ (by omega)
  · unfold RPI5State.set_color
    rw [if_pos (by omega : (0 : Int) ≤ (i : Int) ∧ (i : Int) < (s5.num_leds : Int))]
    dsimp only
    simp only [Int.toNat_natCast]
    exact getD_set_eq_any _ _ _ _ (by omega)
  · intro k hk
    unfold RPI5State.set_color
    rw [if_pos (by omega : (0 : Int) ≤ (i : Int) ∧ (i : Int) < (s5.num_leds : Int))]
    dsimp only
    simp only [Int.toNat_natCast]
    exact getD_set_ne_any _ _ _ _ _ (by omega)

/-- Witness for C9 at 3-LED controllers, setting index 1. -/
theorem C9_witness :
    ((⟨3, DriverType.rpi5_ws2812, [(1,1,1), (2,2,2), (3,3,3)], true⟩ :
        LEDController).set_color (1 : Int) 7 8 9).1.frame.getD 1 (0, 0, 0) =
      ((7, 8, 9) : Color) ∧
    (∀ k, k ≠ 1 →
      ((⟨3, DriverType.rpi5_ws2812, [(1,1,1), (2,2,2), (3,3,3)], true⟩ :
          LEDController).set_color (1 : Int) 7 8 9).1.frame.getD k (0, 0, 0) =
        (⟨3, DriverType.rpi5_ws2812, [(1,1,1), (2,2,2), (3,3,3)], true⟩ :
          LEDController).frame.getD k (0, 0, 0)) ∧
    ((⟨3, [(1,1,1), (2,2,2), (3,3,3)]⟩ : RPI5State).set_color
        (1 : Int) 7 8 9).1.led_states.getD 1 (0, 0, 0) = ((7, 8, 9) : Color) ∧
    (∀ k, k ≠ 1 →
      ((⟨3, [(1,1,1), (2,2,2), (3,3,3)]⟩ : RPI5State).set_color
          (1 : Int) 7 8 9).1.led_states.getD k (0, 0, 0) =
        (⟨3, [(1,1,1), (2,2,2), (3,3,3)]⟩ : RPI5State).led_states.getD k (0, 0, 0)) ∧
    ((RespeakerState.init 3 31 "rgb").set_color (1 : Int) 7 8 9 100).colorAt 1 = (7, 8, 9) ∧
    (∀ k, k ≠ 1 →
      ((RespeakerState.init 3 31 "rgb").set_color (1 : Int) 7 8 9 100).colorAt k =
        (RespeakerState.init 3 31 "rgb").colorAt k) :=
  C9_set_pixel_localized
    ⟨3, DriverType.rpi5_ws2812, [(1,1,1), (2,2,2), (3,3,3)], true⟩
    ⟨3, [(1,1,1), (2,2,2), (3,3,3)]⟩ (RespeakerState.init 3 31 "rgb")
    1 7 8 9 100
    (by decide) (by decide) (by decide) (by decide) (by decide) (by decide) (by decide)

/-- Claim C10: for any index outside `[0, led_count)` — negative or too
large — every controller variant's `set_color` returns normally,
leaves its stored frame untouched, and performs no transmission: the
out-of-range policy is uniformly silent ignoring. -/
theorem C10_out_of_range_ignored
    (c : LEDController) (s5 : RPI5State) (sx : RPI281xState) (sr : RespeakerState)
    (idx : Int) (r g b p : Nat)
    (hc : idx < 0 ∨ (c.led_count : Int) ≤ idx)
    (h5 : idx < 0 ∨ (s5.num_leds : Int) ≤ idx)
    (hx : idx < 0 ∨ (sx.num_leds : Int) ≤ idx)
    (hr : idx < 0 ∨ (sr.num_leds : Int) ≤ idx) :
    c.set_color idx r g b = (c, 0) ∧
    s5.set_color idx r g b = (s5, 0) ∧
    sx.set_color idx r g b = (sx, 0) ∧
    sr.set_color idx r g b p = sr := by
  refine ⟨?_, ?_, ?_, ?_⟩
  · unfold LEDController.set_color
    rw [if_neg (by omega : ¬((0 : Int) ≤ idx ∧ idx < (c.led_count : Int)))]
  · unfold RPI5State.set_color
    rw [if_neg (by omega : ¬((0 : Int) ≤ idx ∧ idx < (s5.num_leds : Int)))]
  · unfold RPI281xState.set_color
    rw [if_neg (by omega : ¬((0 : Int) ≤ idx ∧ idx < (sx.num_leds : Int)))]
  · unfold RespeakerState.set_color
    rw [if_pos hr]

/-- Witness for C10: index 5 and index -1 on 3-LED controllers are both
silently ignored by all four variants. -/
theorem C10_witness :
    ((⟨3, DriverType.rpi5_ws2812, [(1,1,1), (2,2,2), (3,3,3)], true⟩ :
        LEDController).set_color (5 : Int) 7 8 9 =
      (⟨3, DriverType.rpi5_ws2812, [(1,1,1), (2,2,2), (3,3,3)], true⟩, 0) ∧
    (⟨3, [(1,1,1), (2,2,2), (3,3,3)]⟩ : RPI5State).set_color (5 : Int) 7 8 9 =
      (⟨3, [(1,1,1), (2,2,2), (3,3,3)]⟩, 0) ∧
    (⟨3, [(1,1,1), (2,2,2), (3,3,3)]⟩ : RPI281xState).set_color (5 : Int) 7 8 9 =
      (⟨3, [(1,1,1), (2,2,2), (3,3,3)]⟩, 0) ∧
    (RespeakerState.init 3 31 "rgb").set_color (5 : Int) 7 8 9 100 =
      RespeakerState.init 3 31 "rgb") ∧
    ((⟨3, DriverType.rpi5_ws2812, [(1,1,1), (2,2,2), (3,3,3)], true⟩ :
        LEDController).set_color (-1 : Int) 7 8 9 =
      (⟨3, DriverType.rpi5_ws2812, [(1,1,1), (2,2,2), (3,3,3)], true⟩, 0) ∧
    (⟨3, [(1,1,1), (2,2,2), (3,3,3)]⟩ : RPI5State).set_color (-1 : Int) 7 8 9 =
      (⟨3, [(1,1,1), (2,2,2), (3,3,3)]⟩, 0) ∧
    (⟨3, [(1,1,1), (2,2,2), (3,3,3)]⟩ : RPI281xState).set_color (-1 : Int) 7 8 9 =
      (⟨3, [(1,1,1), (2,2,2), (3,3,3)]⟩, 0) ∧
    (RespeakerState.init 3 31 "rgb").set_color (-1 : Int) 7 8 9 100 =
      RespeakerState.init 3 31 "rgb") :=
  ⟨C10_out_of_range_ignored
      ⟨3, DriverType.rpi5_ws2812, [(1,1,1), (2,2,2), (3,3,3)], true⟩
      ⟨3, [(1,1,1), (2,2,2), (3,3,3)]⟩ ⟨3, [(1,1,1), (2,2,2), (3,3,3)]⟩
      (RespeakerState.init 3 31 "rgb") 5 7 8 9 100
      (by decide) (by decide) (by decide) (by decide),
   C10_out_of_range_ignored
      ⟨3, DriverType.rpi5_ws2812, [(1,1,1), (2,2,2), (3,3,3)], true⟩
      ⟨3, [(1,1,1), (2,2,2), (3,3,3)]⟩ ⟨3, [(1,1,1), (2,2,2), (3,3,3)]⟩
      (RespeakerState.init 3 31 "rgb") (-1) 7 8 9 100
      (by decide) (by decide) (by decide) (by decide)⟩
